import Mathlib

/-!
Shallow embedding of the subscription reconciliation engine of the
payment-services repository: the `Subscription` mongoose model with its
`pre("save")` and `pre("findOneAndUpdate")` hooks
(src/models/Subscription.js), the engine operations of
src/services/subscriptionIntegrationService.js (`updateSubscription`,
`cancelSubscriptionAtPeriodEnd`, `reactivateSubscription`, `changePlan`),
and the two webhook dispatchers
(src/controllers/webhookController.js `processWebhookEvent` and
src/controllers/webhook.controller.js `handleStripeWebhook` together with
its `handleSubscriptionDeleted` handler).

Remote Stripe calls, the clock and the calendar arithmetic of the
JavaScript `Date` (`setMonth(getMonth()+1)`, `setFullYear(getFullYear()+1)`,
`toLocaleDateString`) are modelled as an explicit environment threaded
through the operations; the persistent stores are association lists.
-/

namespace PaymentService

/-- Plans of the Subscription schema (src/models/Subscription.js). -/
inductive Plan
  | free
  | monthly
  | annual
  | premium
deriving DecidableEq, Repr

/-- Status enum of the Subscription schema. -/
inductive SubStatus
  | active
  | canceled
  | suspended
  | trialing
  | incomplete
deriving DecidableEq, Repr

/-- The `cancelationType` enum; the field itself is nullable. -/
inductive CancelType
  | immediate
  | end_of_period
deriving DecidableEq, Repr

/-- A JavaScript value that may occupy an `endDate` slot: `null`, the
string `"null"`, the empty string, an unparseable string (cast by
`new Date` to an Invalid Date), or a valid date carrying epoch
milliseconds. -/
inductive JsDateVal
  | nullV
  | strNull
  | emptyStr
  | invalidStr
  | date (ms : Int)
deriving DecidableEq, Repr

/-- The Subscription document (fields of src/models/Subscription.js used
by the engine).  `endDate` deliberately stores a `JsDateVal` so that the
stripping performed by the write paths is a provable property rather than
one baked into the type. -/
structure Subscription where
  userId : Nat
  plan : Plan := .free
  status : SubStatus := .active
  isActive : Bool := true
  startDate : Int := 0
  endDate : Option JsDateVal := none
  cancelationType : Option CancelType := none
  stripeCustomerId : Option String := none
  stripeSubscriptionId : Option String := none
  updatedAt : Int := 0
deriving DecidableEq, Repr

/-- The subscription store: documents keyed by `userId` (unique index). -/
abbrev Store := List Subscription

/-- Model of `Subscription.findOne` restricted by a userId filter plus
extra filter conditions. -/
def findOneByUser (st : Store) (uid : Nat) (p : Subscription → Bool) : Option Subscription :=
  st.find? (fun s => s.userId == uid && p s)

/-- Replace the document of `s.userId` (unique index on userId), or insert
it when absent: the write half of an upsert `findOneAndUpdate`. -/
def putUser (st : Store) (s : Subscription) : Store :=
  if st.any (fun t => t.userId == s.userId) then
    st.map (fun t => if t.userId == s.userId then s else t)
  else
    st ++ [s]

/-- The user role store (src/models/User.js), role per userId; written by
`User.findByIdAndUpdate(objectId, { role })`. -/
abbrev Roles := List (Nat × String)

def setRole (rs : Roles) (uid : Nat) (r : String) : Roles :=
  if rs.any (fun t => t.1 == uid) then
    rs.map (fun t => if t.1 == uid then (uid, r) else t)
  else
    rs ++ [(uid, r)]

/-- The persistent world the engine reads and writes: the subscription
store and the user role store. -/
structure WorldState where
  store : Store
  roles : Roles
deriving DecidableEq, Repr

/-- Partial update payload passed to `updateSubscription(userId, data)`:
`none` models an absent (undefined) field.  `cancelationType = some none`
models an explicit JavaScript `null`. -/
structure UpdateData where
  plan : Option Plan := none
  status : Option SubStatus := none
  isActive : Option Bool := none
  endDate : Option JsDateVal := none
  cancelationType : Option (Option CancelType) := none
  stripeCustomerId : Option (Option String) := none
  stripeSubscriptionId : Option (Option String) := none
  updateUserRole : Option Bool := none
deriving DecidableEq, Repr

/-- The endDate stripping performed by `updateSubscription` (lines 21-48 of
src/services/subscriptionIntegrationService.js) and repeated by the
`pre("findOneAndUpdate")` hook of src/models/Subscription.js (lines
112-128): `null`, `"null"`, `""` and unparseable values are deleted from
the update; a valid value is kept as a `Date`. -/
def cleanEndDate : Option JsDateVal → Option JsDateVal
  | none => none
  | some .nullV => none
  | some .strNull => none
  | some .emptyStr => none
  | some .invalidStr => none
  | some (.date ms) => some (.date ms)

/-- Whether an endDate slot holds either nothing or a valid date. -/
def validEnd : Option JsDateVal → Bool
  | none => true
  | some (.date _) => true
  | _ => false

/-- The endDate cleanup of the `pre("save")` hook (lines 90-97): an
endDate that is truthy yet not a valid date (`isNaN(getTime())`) is
removed; `null`-like falsy slots are left as they are. -/
def saveCleanEndDate : Option JsDateVal → Option JsDateVal
  | some .strNull => none
  | some .invalidStr => none
  | x => x

/-- The `pre("save")` hook of src/models/Subscription.js (lines 90-109):
clean an invalid endDate, then set `isActive = false` when
`status === "canceled"` and `new Date() >= endDate`. -/
def preSave (now : Int) (s : Subscription) : Subscription :=
  let s1 : Subscription := { s with endDate := saveCleanEndDate s.endDate }
  match s1.endDate with
  | some (.date ms) =>
      if s1.status = .canceled ∧ ms ≤ now then { s1 with isActive := false } else s1
  | _ => s1

/-- Environment of the engine: the clock, the calendar arithmetic used for
locally computed end dates (`setMonth(getMonth()+1)`,
`setFullYear(getFullYear()+1)`), date formatting
(`toLocaleDateString("fr-FR")`), the configured Stripe price ids, and a
fault-injection flag for the subscription-store write. -/
structure DbEnv where
  now : Int
  addMonth : Int → Int
  addYear : Int → Int
  formatDate : Int → String
  priceMonthlyId : Option String := none
  priceAnnualId : Option String := none
  subWriteFails : Bool := false

/-- A write issued against the persistent stores, in issue order. -/
inductive WriteOp
  | roleWrite (uid : Nat) (role : String)
  | subWrite (uid : Nat)
deriving DecidableEq, Repr

/-- Merge an update payload into an existing document, as the upsert
`findOneAndUpdate` of `updateSubscription` does after the
`pre("findOneAndUpdate")` hook stripped the endDate; `updatedAt` is
always stamped. -/
def applyUpdate (now : Int) (old : Subscription) (data : UpdateData) : Subscription :=
  { old with
    plan := data.plan.getD old.plan
    status := data.status.getD old.status
    isActive := data.isActive.getD old.isActive
    endDate :=
      match cleanEndDate data.endDate with
      | none => old.endDate
      | some v => some v
    cancelationType := data.cancelationType.getD old.cancelationType
    stripeCustomerId := data.stripeCustomerId.getD old.stripeCustomerId
    stripeSubscriptionId := data.stripeSubscriptionId.getD old.stripeSubscriptionId
    updatedAt := now }

/-- Schema defaults applied when the upsert inserts a fresh document. -/
def defaultSub (uid : Nat) (now : Int) : Subscription :=
  { userId := uid, startDate := now, updatedAt := now }

/-- Result of `updateSubscription`: the writes issued (in order), the
world after the call, and the returned document or the thrown error. -/
structure UpdateOutcome where
  writes : List WriteOp
  world : WorldState
  result : Except String Subscription
deriving Repr

/-- Model of `SubscriptionIntegrationService.updateSubscription(userId,
data)` (src/services/subscriptionIntegrationService.js lines 11-92):
strip a malformed endDate from the payload; when
`data.updateUserRole === true`, write role "premium" when
`data.status === "active" && data.isActive`, role "user" when
`data.status === "canceled" && !data.isActive`, nothing otherwise; then
upsert the document by userId (the `pre("findOneAndUpdate")` hook strips
the endDate again), stamping `updatedAt`.  The role write, when any, is
issued before the subscription-store write; a failing store write leaves
the already-applied role change in place. -/
def updateSubscription (env : DbEnv) (w : WorldState) (uid : Nat) (data : UpdateData) :
    UpdateOutcome :=
  let data1 : UpdateData := { data with endDate := cleanEndDate data.endDate }
  let roleStep : List WriteOp × Roles :=
    if data1.updateUserRole = some true then
      if data1.status = some .active ∧ data1.isActive = some true then
        ([.roleWrite uid "premium"], setRole w.roles uid "premium")
      else if data1.status = some .canceled ∧ data1.isActive ≠ some true then
        ([.roleWrite uid "user"], setRole w.roles uid "user")
      else
        ([], w.roles)
    else
      ([], w.roles)
  if env.subWriteFails then
    { writes := roleStep.1
      world := { store := w.store, roles := roleStep.2 }
      result := .error "db write failed" }
  else
    let updated : Subscription :=
      match findOneByUser w.store uid (fun _ => true) with
      | some old => applyUpdate env.now old data1
      | none => applyUpdate env.now (defaultSub uid env.now) data1
    { writes := roleStep.1 ++ [.subWrite uid]
      world := { store := putUser w.store updated, roles := roleStep.2 }
      result := .ok updated }

/-- Error thrown by a Stripe call: the `code` property (for example
`"resource_missing"`) and the message. -/
structure StripeErr where
  code : Option String
  msg : String
deriving DecidableEq, Repr

/-- The fields of a remote Stripe subscription object the engine reads.
`current_period_end` is epoch seconds; `0` models an absent/falsy value.
`firstItemId` is `items.data[0].id` (assumed present). -/
structure RemoteSub where
  id : String
  cancel_at_period_end : Bool := false
  current_period_end : Int := 0
  firstItemId : String := ""
deriving DecidableEq, Repr

/-- Behaviour of the remote Stripe gateway for the calls the engine
issues: `subscriptions.retrieve`, `subscriptions.update` with
`cancel_at_period_end`, and `subscriptions.update` swapping the price
item. -/
structure StripeEnv where
  retrieve : String → Except StripeErr RemoteSub
  updateCancel : String → Bool → Except StripeErr RemoteSub
  updateItems : String → String → String → Except StripeErr RemoteSub

/-- A remote call issued by the engine, in issue order. -/
inductive StripeCall
  | retrieve (id : String)
  | updateCancel (id : String) (flag : Bool)
  | updateItems (id : String) (itemId : String) (priceId : String)
deriving DecidableEq, Repr

/-- Filter of the first `findOne` of `cancelSubscriptionAtPeriodEnd`:
an active subscription. -/
def activePred (s : Subscription) : Bool :=
  s.status = .active && s.isActive

/-- Filter of the second `findOne`: already scheduled for cancellation
(`status: "canceled", isActive: true, cancelationType: { $ne: "immediate" }`). -/
def scheduledPred (s : Subscription) : Bool :=
  s.status = .canceled && s.isActive && s.cancelationType ≠ some .immediate

/-- Filter of the third `findOne`: an expired cancellation. -/
def expiredPred (s : Subscription) : Bool :=
  s.status = .canceled && !s.isActive

/-- Filter of the `findOne` of `reactivateSubscription`. -/
def reactivablePred (s : Subscription) : Bool :=
  s.status = .canceled && s.isActive && s.cancelationType = some .end_of_period

/-- How `subscription.endDate` is rendered into the "already scheduled"
message: `toLocaleDateString("fr-FR")` on a truthy endDate, the literal
fallback text on a falsy one. -/
def endDateDisplay (env : DbEnv) : Option JsDateVal → String
  | some (.date ms) => env.formatDate ms
  | some .strNull => "Invalid Date"
  | some .invalidStr => "Invalid Date"
  | _ => "fin de période"

/-- The locally computed fallback end date: `setFullYear(+1)` from now for
an annual plan, `setMonth(+1)` from now for every other plan. -/
def localFallbackEnd (env : DbEnv) (plan : Plan) : Int :=
  if plan = .annual then env.addYear env.now else env.addMonth env.now

/-- The remote phase of `cancelSubscriptionAtPeriodEnd` (lines 301-356):
retrieve the remote subscription; when it already has
`cancel_at_period_end === true` adopt its period end without issuing the
update call; otherwise issue the cancel-at-period-end update and adopt the
returned period end.  Returns the issued calls and either the resolved
endDate candidate or the Stripe error caught by the surrounding catch. -/
def remoteCancelPhase (se : StripeEnv) (sub : Subscription) (sid : String) :
    List StripeCall × Except StripeErr (Option JsDateVal) :=
  match se.retrieve sid with
  | .error e => ([.retrieve sid], .error e)
  | .ok rsub =>
      if rsub.cancel_at_period_end then
        ([.retrieve sid],
          .ok (if rsub.current_period_end ≠ 0 then
                some (.date (rsub.current_period_end * 1000))
              else sub.endDate))
      else
        match se.updateCancel sid true with
        | .error e => ([.retrieve sid, .updateCancel sid true], .error e)
        | .ok usub =>
            ([.retrieve sid, .updateCancel sid true],
              .ok (if usub.current_period_end > 0 then
                    some (.date (usub.current_period_end * 1000))
                  else sub.endDate))

/-- The payload `cancelSubscriptionAtPeriodEnd` persists through
`updateSubscription` (lines 434-440): `status: "canceled",
isActive: true, endDate, cancelationType: "end_of_period",
updateUserRole: false`. -/
def cancelPersistData (ms : Int) : UpdateData :=
  { status := some .canceled, isActive := some true, endDate := some (.date ms),
    cancelationType := some (some .end_of_period), updateUserRole := some false }

/-- Result of an engine operation: remote calls issued, local writes
issued, the world after the call, and the value returned or the error
thrown. -/
structure OpOutcome where
  calls : List StripeCall
  writes : List WriteOp
  world : WorldState
  result : Except String Subscription
deriving Repr

/-- Model of `cancelSubscriptionAtPeriodEnd(userId)`
(src/services/subscriptionIntegrationService.js lines 232-463).  Guard
chain: an active subscription is required; a subscription already
scheduled for cancellation raises the "déjà programmé" message naming its
end date; an expired one raises the "déjà expiré" message; otherwise
"Aucun abonnement à annuler trouvé.".  With a remote id the remote phase
resolves the end date — a `resource_missing` Stripe error falls back to
the locally computed end date, any other Stripe error aborts — and an
invalid candidate also falls back locally.  Without a remote id the end
date is computed locally.  The result is persisted through
`updateSubscription` with `status: "canceled", isActive: true,
cancelationType: "end_of_period", updateUserRole: false`. -/
def cancelSubscriptionAtPeriodEnd (env : DbEnv) (se : StripeEnv) (w : WorldState)
    (uid : Nat) : OpOutcome :=
  match findOneByUser w.store uid activePred with
  | none =>
      match findOneByUser w.store uid scheduledPred with
      | some s =>
          { calls := [], writes := [], world := w
            result := .error
              ("Votre abonnement est déjà programmé pour annulation le " ++
                endDateDisplay env s.endDate ++
                ". Vous pouvez le réactiver si vous changez d\x27avis.") }
      | none =>
          match findOneByUser w.store uid expiredPred with
          | some _ =>
              { calls := [], writes := [], world := w
                result := .error
                  "Votre abonnement a déjà expiré. Vous pouvez souscrire à un nouveau plan depuis la page Premium." }
          | none =>
              { calls := [], writes := [], world := w
                result := .error "Aucun abonnement à annuler trouvé." }
  | some sub =>
      let resolved : List StripeCall × Except String (Option JsDateVal) :=
        match sub.stripeSubscriptionId with
        | some sid =>
            match remoteCancelPhase se sub sid with
            | (calls, .ok cand) =>
                (calls,
                  .ok (match cand with
                    | some (.date ms) => some (.date ms)
                    | _ => some (.date (localFallbackEnd env sub.plan))))
            | (calls, .error e) =>
                if e.code = some "resource_missing" then
                  (calls, .ok (some (.date (localFallbackEnd env sub.plan))))
                else
                  (calls, .error ("Échec programmation annulation Stripe: " ++ e.msg))
        | none => ([], .ok (some (.date (localFallbackEnd env sub.plan))))
      match resolved with
      | (calls, .error m) =>
          { calls := calls, writes := [], world := w, result := .error m }
      | (calls, .ok cand) =>
          match cand with
          | some (.date ms) =>
              let out := updateSubscription env w uid (cancelPersistData ms)
              match out.result with
              | .ok r =>
                  { calls := calls, writes := out.writes, world := out.world
                    result := .ok r }
              | .error m =>
                  { calls := calls, writes := out.writes, world := out.world
                    result := .error ("Erreur sauvegarde annulation: " ++ m) }
          | _ =>
              { calls := calls, writes := [], world := w
                result := .error "Impossible de déterminer la date de fin d\x27abonnement" }

/-- Model of `reactivateSubscription(userId)` (lines 466-535): requires a
`status: "canceled", isActive: true, cancelationType: "end_of_period"`
document; with a remote id, clears `cancel_at_period_end` remotely and any
Stripe failure aborts; then persists `status: "active", isActive: true,
cancelationType: null, updateUserRole: true`. -/
def reactivateSubscription (env : DbEnv) (se : StripeEnv) (w : WorldState)
    (uid : Nat) : OpOutcome :=
  match findOneByUser w.store uid reactivablePred with
  | none =>
      { calls := [], writes := [], world := w
        result := .error "Aucun abonnement annulé réactivable trouvé." }
  | some sub =>
      let remote : List StripeCall × Except String Unit :=
        match sub.stripeSubscriptionId with
        | some sid =>
            match se.updateCancel sid false with
            | .ok _ => ([.updateCancel sid false], .ok ())
            | .error e =>
                ([.updateCancel sid false],
                  .error ("Échec réactivation Stripe: " ++ e.msg))
        | none => ([], .ok ())
      match remote with
      | (calls, .error m) =>
          { calls := calls, writes := [], world := w, result := .error m }
      | (calls, .ok _) =>
          let out := updateSubscription env w uid
            { status := some .active, isActive := some true,
              cancelationType := some none, updateUserRole := some true }
          { calls := calls, writes := out.writes, world := out.world
            result := out.result }

/-- Printable plan name, as interpolated into user-facing messages. -/
def planName : Plan → String
  | .free => "free"
  | .monthly => "monthly"
  | .annual => "annual"
  | .premium => "premium"

/-- Value returned by a successful `changePlan`. -/
structure ChangePlanInfo where
  subscription : Subscription
  oldPlan : Plan
  newPlan : Plan
  effectiveDate : Int
  prorationAmount : ℚ
deriving Repr

/-- Result of `changePlan`. -/
structure ChangePlanOutcome where
  calls : List StripeCall
  writes : List WriteOp
  world : WorldState
  result : Except String ChangePlanInfo
deriving Repr

/-- Flat reference price of the monthly plan (9.99). -/
def monthlyPrice : ℚ := 999 / 100

/-- Flat reference price of the annual plan (99.99). -/
def annualPrice : ℚ := 9999 / 100

/-- The locally estimated proration of `changePlan` (lines 636-649). -/
def prorationFor (oldPlan newPlan : Plan) : ℚ :=
  if oldPlan = .monthly ∧ newPlan = .annual then
    -(monthlyPrice * 12 - annualPrice)
  else if oldPlan = .annual ∧ newPlan = .monthly then
    annualPrice / 12 - monthlyPrice
  else 0

/-- The new effective end date of `changePlan`: one year ahead for
annual, one month ahead for monthly, now itself otherwise. -/
def changePlanEffectiveDate (env : DbEnv) (newPlan : Plan) : Int :=
  if newPlan = .annual then env.addYear env.now
  else if newPlan = .monthly then env.addMonth env.now
  else env.now

/-- Model of `changePlan(userId, newPlan)` (lines 537-716): requires an
active subscription; refuses when `newPlan` equals the current plan; with
a remote id resolves the configured price id, retrieves the remote
subscription, swaps its first price item with prorations enabled (any
Stripe failure aborts), computes the new end date one period ahead and the
locally estimated proration; then persists `plan: newPlan,
endDate: effectiveDate, updateUserRole: false`. -/
def changePlan (env : DbEnv) (se : StripeEnv) (w : WorldState) (uid : Nat)
    (newPlan : Plan) : ChangePlanOutcome :=
  match findOneByUser w.store uid activePred with
  | none =>
      { calls := [], writes := [], world := w
        result := .error "Aucun abonnement actif trouvé pour changer le plan." }
  | some sub =>
      if sub.plan = newPlan then
        { calls := [], writes := [], world := w
          result := .error ("Vous êtes déjà sur le plan " ++ planName newPlan ++ ".") }
      else
        let remote : List StripeCall × Except String (Int × ℚ) :=
          match sub.stripeSubscriptionId with
          | some sid =>
              let priceId? :=
                if newPlan = .annual then env.priceAnnualId else env.priceMonthlyId
              match priceId? with
              | none =>
                  ([], .error ("Échec changement de plan Stripe: " ++
                    "Price ID non défini pour le plan " ++ planName newPlan))
              | some pid =>
                  match se.retrieve sid with
                  | .error e =>
                      ([.retrieve sid],
                        .error ("Échec changement de plan Stripe: " ++ e.msg))
                  | .ok rsub =>
                      match se.updateItems sid rsub.firstItemId pid with
                      | .error e =>
                          ([.retrieve sid, .updateItems sid rsub.firstItemId pid],
                            .error ("Échec changement de plan Stripe: " ++ e.msg))
                      | .ok _ =>
                          ([.retrieve sid, .updateItems sid rsub.firstItemId pid],
                            .ok (changePlanEffectiveDate env newPlan,
                              prorationFor sub.plan newPlan))
          | none => ([], .ok (changePlanEffectiveDate env newPlan, 0))
        match remote with
        | (calls, .error m) =>
            { calls := calls, writes := [], world := w, result := .error m }
        | (calls, .ok (effDate, proration)) =>
            let out := updateSubscription env w uid
              { plan := some newPlan, endDate := some (.date effDate),
                updateUserRole := some false }
            match out.result with
            | .ok r =>
                { calls := calls, writes := out.writes, world := out.world
                  result := .ok
                    { subscription := r, oldPlan := sub.plan, newPlan := newPlan,
                      effectiveDate := effDate, prorationAmount := proration } }
            | .error m =>
                { calls := calls, writes := out.writes, world := out.world
                  result := .error ("Erreur sauvegarde changement plan: " ++ m) }

/-- Body of an HTTP response produced by a webhook dispatcher. -/
inductive HttpBody
  | json (tag : String)
  | receivedIgnored
  | receivedError (msg : String)
  | received
  | processingError (evType msg : String)
deriving DecidableEq, Repr

/-- An HTTP response: status code and body. -/
structure HttpResponse where
  status : Nat
  body : HttpBody
deriving DecidableEq, Repr

/-- A routed handler of src/controllers/webhookController.js: acts on the
world and either returns a JSON payload (abstracted to a tag) or throws.
The post-state is reported in both cases — a throwing handler keeps any
mutation it performed before throwing. -/
abbrev HandlerFn := WorldState → WorldState × Except String String

/-- The message of the TypeError raised when the
`"customer.subscription.deleted"` case of `processWebhookEvent` calls
`WebhookController.handleSubscriptionDeleted`: webhookController.js
defines no such static method, so the call itself throws. -/
def missingDeletedHandlerMsg : String :=
  "WebhookController.handleSubscriptionDeleted is not a function"

/-- Model of `WebhookController.processWebhookEvent(event, res)`
(src/controllers/webhookController.js lines 61-101).  The switch routes
the five known event types to their handlers; every handler result is sent
with `res.json` (status 200); an unrecognized type is acknowledged with
`200 { received: true, ignored: true }` and no side effect; a thrown error
is caught and acknowledged with `200 { received: true, error }`.  The
`"customer.subscription.deleted"` case calls a method the class does not
define, so it deterministically throws a TypeError that the same catch
turns into a 200 acknowledgment. -/
def processWebhookEvent (onCheckout onSubUpdated onInvPaid onInvFailed : HandlerFn)
    (w : WorldState) (evType : String) : WorldState × HttpResponse :=
  let run : HandlerFn → WorldState × HttpResponse := fun h =>
    match h w with
    | (w2, .ok body) => (w2, ⟨200, .json body⟩)
    | (w2, .error m) => (w2, ⟨200, .receivedError m⟩)
  match evType with
  | "checkout.session.completed" => run onCheckout
  | "customer.subscription.deleted" =>
      (w, ⟨200, .receivedError missingDeletedHandlerMsg⟩)
  | "customer.subscription.updated" => run onSubUpdated
  | "invoice.paid" => run onInvPaid
  | "invoice.payment_failed" => run onInvFailed
  | _ => (w, ⟨200, .receivedIgnored⟩)

/-- The event types `processWebhookEvent` routes to a handler. -/
def knownEventTypes : List String :=
  ["checkout.session.completed", "customer.subscription.deleted",
   "customer.subscription.updated", "invoice.paid", "invoice.payment_failed"]

/-- The subscription document of src/models/subscription.model.js, used by
src/controllers/webhook.controller.js (fields the deleted-handler
touches). -/
structure SubscriptionM2 where
  userId : String
  stripeSubscriptionId : String
  status : String := "incomplete"
  currentPeriodEnd : Int := 0
  canceledAt : Option Int := none
deriving DecidableEq, Repr

/-- Store of the second subscription model, keyed by
`stripeSubscriptionId` (unique index). -/
abbrev Store2 := List SubscriptionM2

/-- Replace the document with the same `stripeSubscriptionId`. -/
def putSub2 (st : Store2) (s : SubscriptionM2) : Store2 :=
  st.map (fun t => if t.stripeSubscriptionId == s.stripeSubscriptionId then s else t)

/-- Environment of the second webhook controller: the clock and a
fault-injection flag for the document save. -/
structure M2Env where
  now : Int
  saveFails : Bool := false

/-- Model of `handleSubscriptionDeleted(subscription)` of
src/controllers/webhook.controller.js (lines 360-410): find the local
subscription by the remote id; a missing one is a logged no-op; otherwise
set `status = "canceled"` and `canceledAt = new Date()` and save — a
failing save is rethrown (the user-service and email side effects have
their own catches and never affect the outcome). -/
def handleSubscriptionDeleted2 (env : M2Env) (st : Store2) (subId : String) :
    Store2 × Except String Unit :=
  match st.find? (fun s => s.stripeSubscriptionId == subId) with
  | none => (st, .ok ())
  | some s =>
      if env.saveFails then
        (st, .error "save failed")
      else
        (putSub2 st { s with status := "canceled", canceledAt := some env.now }, .ok ())

/-- A routed handler of src/controllers/webhook.controller.js: acts on its
store and either returns or throws, reporting the post-state in both
cases. -/
abbrev HandlerFn2 := Store2 → Store2 × Except String Unit

/-- Model of the dispatch part of
`WebhookController.handleStripeWebhook(req, res)`
(src/controllers/webhook.controller.js lines 42-85), after the signature
verified.  Each known event type awaits its handler and then answers
`200 { received: true }`; an unrecognized type is logged and likewise
acknowledged with 200 and no side effect; a thrown handler error is caught
and answered with a 500 error response. -/
def handleStripeWebhook2
    (onPaySucceeded onPayFailed onSubCreated onSubUpdated onSubDeleted
      onInvSucceeded onInvFailed : HandlerFn2)
    (st : Store2) (evType : String) : Store2 × HttpResponse :=
  let run : HandlerFn2 → Store2 × HttpResponse := fun h =>
    match h st with
    | (st2, .ok _) => (st2, ⟨200, .received⟩)
    | (st2, .error m) => (st2, ⟨500, .processingError evType m⟩)
  match evType with
  | "payment_intent.succeeded" => run onPaySucceeded
  | "payment_intent.payment_failed" => run onPayFailed
  | "customer.subscription.created" => run onSubCreated
  | "customer.subscription.updated" => run onSubUpdated
  | "customer.subscription.deleted" => run onSubDeleted
  | "invoice.payment_succeeded" => run onInvSucceeded
  | "invoice.payment_failed" => run onInvFailed
  | _ => (st, ⟨200, .received⟩)

/-- The event types `handleStripeWebhook2` routes to a handler. -/
def knownEventTypes2 : List String :=
  ["payment_intent.succeeded", "payment_intent.payment_failed",
   "customer.subscription.created", "customer.subscription.updated",
   "customer.subscription.deleted", "invoice.payment_succeeded",
   "invoice.payment_failed"]

/-- The routing of the switch of `handleStripeWebhook` (lines 43-74): the
handler awaited for each known event type, `none` for an unrecognized
type. -/
def routeOf2 (onPaySucceeded onPayFailed onSubCreated onSubUpdated onSubDeleted
    onInvSucceeded onInvFailed : HandlerFn2) (evType : String) : Option HandlerFn2 :=
  match evType with
  | "payment_intent.succeeded" => some onPaySucceeded
  | "payment_intent.payment_failed" => some onPayFailed
  | "customer.subscription.created" => some onSubCreated
  | "customer.subscription.updated" => some onSubUpdated
  | "customer.subscription.deleted" => some onSubDeleted
  | "invoice.payment_succeeded" => some onInvSucceeded
  | "invoice.payment_failed" => some onInvFailed
  | _ => none

/-! ### Shared fixtures and helper lemmas -/

/-- A concrete engine environment for witnesses. -/
def testEnv : DbEnv :=
  { now := 1000, addMonth := fun t => t + 30, addYear := fun t => t + 365,
    formatDate := fun t => toString t,
    priceMonthlyId := some "price_m", priceAnnualId := some "price_a" }

/-- The engine environment with a failing subscription-store write. -/
def failEnv : DbEnv := { testEnv with subWriteFails := true }

lemma cleanEndDate_idem (x : Option JsDateVal) :
    cleanEndDate (cleanEndDate x) = cleanEndDate x := by
  cases x with
  | none => rfl
  | some v => cases v <;> rfl

lemma updateSubscription_ok (env : DbEnv) (w : WorldState) (uid : Nat)
    (data : UpdateData) (h : env.subWriteFails = false) :
    (updateSubscription env w uid data).result =
      .ok (applyUpdate env.now
        ((findOneByUser w.store uid (fun _ => true)).getD (defaultSub uid env.now))
        { data with endDate := cleanEndDate data.endDate }) := by
  unfold updateSubscription
  cases hf : findOneByUser w.store uid (fun _ => true) <;> simp [h, hf]

lemma applyUpdate_status (now : Int) (old : Subscription) (data : UpdateData)
    (st : SubStatus) (h : data.status = some st) :
    (applyUpdate now old data).status = st := by
  simp [applyUpdate, h]

lemma applyUpdate_isActive (now : Int) (old : Subscription) (data : UpdateData)
    (b : Bool) (h : data.isActive = some b) :
    (applyUpdate now old data).isActive = b := by
  simp [applyUpdate, h]

lemma applyUpdate_cancelType (now : Int) (old : Subscription) (data : UpdateData)
    (ct : Option CancelType) (h : data.cancelationType = some ct) :
    (applyUpdate now old data).cancelationType = ct := by
  simp [applyUpdate, h]

lemma applyUpdate_plan (now : Int) (old : Subscription) (data : UpdateData)
    (p : Plan) (h : data.plan = some p) :
    (applyUpdate now old data).plan = p := by
  simp [applyUpdate, h]

lemma applyUpdate_endDate_valid (now : Int) (old : Subscription) (data : UpdateData)
    (ms : Int) (h : data.endDate = some (.date ms)) :
    (applyUpdate now old data).endDate = some (.date ms) := by
  simp [applyUpdate, h, cleanEndDate]

lemma updateSubscription_roles_noRole (env : DbEnv) (w : WorldState) (uid : Nat)
    (data : UpdateData) (h : data.updateUserRole ≠ some true) :
    (updateSubscription env w uid data).world.roles = w.roles := by
  unfold updateSubscription
  cases hf : env.subWriteFails <;> simp [h, hf]

lemma cancel_persist_roles (env : DbEnv) (w : WorldState) (uid : Nat) (ms : Int) :
    (updateSubscription env w uid (cancelPersistData ms)).world.roles = w.roles :=
  updateSubscription_roles_noRole env w uid _ (by simp [cancelPersistData])

/-! ### Claim C1 -/

/-- The update payload of the C1 counterexample: a canceled, still-active
record whose endDate lies in the past of `testEnv.now`. -/
def c1Data : UpdateData :=
  { status := some .canceled, isActive := some true,
    endDate := some (.date 0), updateUserRole := some false }

/-- Claim C1, counterexample: pushing `status: "canceled"`,
`isActive: true` and a past endDate through the
findOneAndUpdate-based write path (`updateSubscription`) persists the
record with `isActive = true`, although its endDate (epoch 0) has passed
(`now = 1000`): the `pre("findOneAndUpdate")` hook only strips malformed
endDates and does not enforce the invariant. -/
theorem c1_counterexample :
    ((updateSubscription testEnv ⟨[], []⟩ 1 c1Data).result.map Subscription.status
        = .ok .canceled) ∧
    ((updateSubscription testEnv ⟨[], []⟩ 1 c1Data).result.map Subscription.endDate
        = .ok (some (.date 0))) ∧
    ((updateSubscription testEnv ⟨[], []⟩ 1 c1Data).result.map Subscription.isActive
        = .ok true) ∧
    (0 : Int) ≤ testEnv.now :=
  ⟨rfl, rfl, rfl, by decide⟩

/-- Claim C1 (amended): the canceled-and-expired ⇒ inactive rule is
enforced at the document-save boundary — after the `pre("save")` hook, a
record with `status = canceled` and an endDate not after `now` has
`isActive = false` — but not at the findOneAndUpdate-based upsert
boundary, where `updateSubscription` persists a canceled record with a
past endDate and `isActive = true` unchanged. -/
theorem c1_invariant_at_save_only :
    (∀ (now : Int) (s : Subscription) (ms : Int),
        (preSave now s).status = .canceled →
        (preSave now s).endDate = some (.date ms) →
        ms ≤ now →
        (preSave now s).isActive = false) ∧
    ((updateSubscription testEnv ⟨[], []⟩ 1 c1Data).result.map Subscription.isActive
        = .ok true) := by
  constructor
  · intro now s ms
    obtain ⟨uid, plan, status, isAct, sd, ed, ct, sc, ss, ua⟩ := s
    cases ed with
    | none => simp [preSave, saveCleanEndDate]
    | some v =>
      cases v with
      | nullV => simp [preSave, saveCleanEndDate]
      | strNull => simp [preSave, saveCleanEndDate]
      | emptyStr => simp [preSave, saveCleanEndDate]
      | invalidStr => simp [preSave, saveCleanEndDate]
      | date k =>
        simp only [preSave, saveCleanEndDate]
        split_ifs with hc
        · intro _ _ _
          rfl
        · intro h1 h2 h3
          simp only [Option.some.injEq, JsDateVal.date.injEq] at h2
          exact absurd ⟨h1, h2 ▸ h3⟩ hc
  · rfl

/-- Claim C1, witness for the amended theorem: a canceled record whose
endDate 5 is in the past of now = 10 is forced inactive by the save
hook. -/
theorem c1_witness :
    (preSave 10
      { userId := 1, status := .canceled, endDate := some (.date 5) }).isActive
      = false :=
  c1_invariant_at_save_only.1 10
    { userId := 1, status := .canceled, endDate := some (.date 5) } 5
    rfl rfl (by decide)

/-! ### Claim C2 -/

/-- Claim C2 (amended): in webhookController.js, `processWebhookEvent`
always answers status 200 — handler exceptions included — and an
unrecognized event type is acknowledged with
`200 { received: true, ignored: true }` and no side effect.  In
webhook.controller.js, `handleStripeWebhook` likewise acknowledges an
unrecognized type with 200 and no side effect, but a handler exception
there is answered with a 500 error response, not a 2xx acknowledgment:
the third conjunct covers every routed event type, through the routing
function of the switch. -/
theorem c2_dispatch_policy :
    (∀ (hc hu hp hf : HandlerFn) (w : WorldState) (ev : String),
        (processWebhookEvent hc hu hp hf w ev).2.status = 200) ∧
    (∀ (hc hu hp hf : HandlerFn) (w : WorldState) (ev : String),
        ev ∉ knownEventTypes →
        processWebhookEvent hc hu hp hf w ev = (w, ⟨200, .receivedIgnored⟩)) ∧
    (∀ (h1 h2 h3 h4 h5 h6 h7 : HandlerFn2) (st st2 : Store2) (m : String)
        (ev : String) (h : HandlerFn2),
        routeOf2 h1 h2 h3 h4 h5 h6 h7 ev = some h →
        h st = (st2, .error m) →
        handleStripeWebhook2 h1 h2 h3 h4 h5 h6 h7 st ev
          = (st2, ⟨500, .processingError ev m⟩)) ∧
    (∀ (h1 h2 h3 h4 h5 h6 h7 : HandlerFn2) (st : Store2) (ev : String),
        ev ∉ knownEventTypes2 →
        handleStripeWebhook2 h1 h2 h3 h4 h5 h6 h7 st ev
          = (st, ⟨200, .received⟩)) := by
  refine ⟨?_, ?_, ?_, ?_⟩
  · intro hc hu hp hf w ev
    unfold processWebhookEvent
    split
    · rcases h : hc w with ⟨w2, r⟩
      cases r <;> simp [h]
    · rfl
    · rcases h : hu w with ⟨w2, r⟩
      cases r <;> simp [h]
    · rcases h : hp w with ⟨w2, r⟩
      cases r <;> simp [h]
    · rcases h : hf w with ⟨w2, r⟩
      cases r <;> simp [h]
    · rfl
  · intro hc hu hp hf w ev hev
    simp only [knownEventTypes, List.mem_cons, List.not_mem_nil, or_false] at hev
    push_neg at hev
    obtain ⟨n1, n2, n3, n4, n5⟩ := hev
    unfold processWebhookEvent
    split <;> simp_all
  · intro h1 h2 h3 h4 h5 h6 h7 st st2 m ev h hroute hm
    unfold routeOf2 at hroute
    unfold handleStripeWebhook2
    split at hroute <;>
      first
      | (injection hroute with he; subst he; simp [hm])
      | exact absurd hroute (by simp)
  · intro h1 h2 h3 h4 h5 h6 h7 st ev hev
    simp only [knownEventTypes2, List.mem_cons, List.not_mem_nil, or_false] at hev
    push_neg at hev
    obtain ⟨n1, n2, n3, n4, n5, n6, n7⟩ := hev
    unfold handleStripeWebhook2
    split <;> simp_all

/-- Claim C2, counterexample: on a verified
`customer.subscription.deleted` event whose handler throws, the
webhook.controller.js dispatcher answers 500 — an error status, not a
2xx acknowledgment. -/
theorem c2_counterexample :
    (handleStripeWebhook2
        (fun st => (st, .error "boom")) (fun st => (st, .error "boom"))
        (fun st => (st, .error "boom")) (fun st => (st, .error "boom"))
        (fun st => (st, .error "boom")) (fun st => (st, .error "boom"))
        (fun st => (st, .error "boom"))
        [] "customer.subscription.deleted").2
      = ⟨500, .processingError "customer.subscription.deleted" "boom"⟩ := rfl

/-- Claim C2, witness: the amended theorem applied at concrete handlers,
worlds and events. -/
theorem c2_witness :
    ((processWebhookEvent (fun w => (w, .error "down")) (fun w => (w, .ok "u"))
        (fun w => (w, .ok "p")) (fun w => (w, .ok "f"))
        ⟨[], []⟩ "checkout.session.completed").2.status = 200) ∧
    (processWebhookEvent (fun w => (w, .ok "c")) (fun w => (w, .ok "u"))
        (fun w => (w, .ok "p")) (fun w => (w, .ok "f"))
        ⟨[], []⟩ "charge.refunded" = (⟨[], []⟩, ⟨200, .receivedIgnored⟩)) ∧
    (handleStripeWebhook2 (fun st => (st, .ok ())) (fun st => (st, .ok ()))
        (fun st => (st, .ok ())) (fun st => (st, .ok ()))
        (fun st => (st, .error "db down")) (fun st => (st, .ok ()))
        (fun st => (st, .ok ())) [] "customer.subscription.deleted"
      = ([], ⟨500, .processingError "customer.subscription.deleted" "db down"⟩)) ∧
    (handleStripeWebhook2 (fun st => (st, .error "db down")) (fun st => (st, .ok ()))
        (fun st => (st, .ok ())) (fun st => (st, .ok ()))
        (fun st => (st, .ok ())) (fun st => (st, .ok ()))
        (fun st => (st, .ok ())) [] "payment_intent.succeeded"
      = ([], ⟨500, .processingError "payment_intent.succeeded" "db down"⟩)) ∧
    (handleStripeWebhook2 (fun st => (st, .ok ())) (fun st => (st, .ok ()))
        (fun st => (st, .ok ())) (fun st => (st, .ok ()))
        (fun st => (st, .ok ())) (fun st => (st, .ok ()))
        (fun st => (st, .ok ())) [] "charge.refunded"
      = ([], ⟨200, .received⟩)) :=
  ⟨c2_dispatch_policy.1 _ _ _ _ _ _,
   c2_dispatch_policy.2.1 _ _ _ _ _ _ (by decide),
   c2_dispatch_policy.2.2.1 _ _ _ _ _ _ _ _ _ _ _ _ rfl rfl,
   c2_dispatch_policy.2.2.1 _ _ _ _ _ _ _ _ _ _ _ _ rfl rfl,
   c2_dispatch_policy.2.2.2 _ _ _ _ _ _ _ _ _ (by decide)⟩

/-! ### Claim C3 -/

/-- A model-1 world holding an active subscription tied to remote id
`sub_1`, as it would stand when a deletion event arrives. -/
def c3World : WorldState :=
  ⟨[{ userId := 1, plan := .monthly, status := .active, isActive := true,
      stripeCustomerId := some "cus_1", stripeSubscriptionId := some "sub_1" }],
    [(1, "premium")]⟩

/-- Claim C3 (code bug): a `customer.subscription.deleted` event routed by
webhookController.js reaches a dispatch case that calls the undefined
`WebhookController.handleSubscriptionDeleted`, so the TypeError is caught
and acknowledged and the local store is left untouched — no subscription
is forced to canceled.  The intended behaviour exists in
webhook.controller.js, whose `handleSubscriptionDeleted` does force the
matching record to `status = "canceled"` with `canceledAt = now`. -/
theorem c3_deleted_event :
    (∀ (hc hu hp hf : HandlerFn),
        processWebhookEvent hc hu hp hf c3World "customer.subscription.deleted"
          = (c3World, ⟨200, .receivedError missingDeletedHandlerMsg⟩)) ∧
    (handleSubscriptionDeleted2 ⟨77, false⟩
        [{ userId := "u1", stripeSubscriptionId := "sub_1", status := "active",
           currentPeriodEnd := 99 }] "sub_1"
      = ([{ userId := "u1", stripeSubscriptionId := "sub_1", status := "canceled",
            currentPeriodEnd := 99, canceledAt := some 77 }], .ok ())) :=
  ⟨fun _ _ _ _ => rfl, rfl⟩

/-! ### Claim C4 -/

/-- Claim C4 (confirmed): in `cancelSubscriptionAtPeriodEnd` with a
remote subscription id, (i) a retrieved remote subscription that already
has `cancel_at_period_end = true` short-circuits — only the retrieve call
is issued and its `current_period_end` becomes the persisted endDate;
(ii) a remote failure with code `resource_missing` falls back to the
locally computed end date (now + 1 month except for annual, now + 1 year
for annual); (iii) any other remote failure aborts the operation with the
wrapped Stripe error and leaves the world untouched. -/
theorem c4_remote_cancel_policy :
    (∀ (env : DbEnv) (se : StripeEnv) (w : WorldState) (uid : Nat)
        (sub : Subscription) (sid : String) (rsub : RemoteSub),
        env.subWriteFails = false →
        findOneByUser w.store uid activePred = some sub →
        sub.stripeSubscriptionId = some sid →
        se.retrieve sid = .ok rsub →
        rsub.cancel_at_period_end = true →
        rsub.current_period_end ≠ 0 →
        (cancelSubscriptionAtPeriodEnd env se w uid).calls = [.retrieve sid] ∧
        (cancelSubscriptionAtPeriodEnd env se w uid).result.map Subscription.endDate
          = .ok (some (.date (rsub.current_period_end * 1000)))) ∧
    (∀ (env : DbEnv) (se : StripeEnv) (w : WorldState) (uid : Nat)
        (sub : Subscription) (sid : String) (calls0 : List StripeCall) (e : StripeErr),
        env.subWriteFails = false →
        findOneByUser w.store uid activePred = some sub →
        sub.stripeSubscriptionId = some sid →
        remoteCancelPhase se sub sid = (calls0, .error e) →
        e.code = some "resource_missing" →
        (cancelSubscriptionAtPeriodEnd env se w uid).result.map Subscription.endDate
          = .ok (some (.date
              (if sub.plan = .annual then env.addYear env.now
               else env.addMonth env.now)))) ∧
    (∀ (env : DbEnv) (se : StripeEnv) (w : WorldState) (uid : Nat)
        (sub : Subscription) (sid : String) (calls0 : List StripeCall) (e : StripeErr),
        findOneByUser w.store uid activePred = some sub →
        sub.stripeSubscriptionId = some sid →
        remoteCancelPhase se sub sid = (calls0, .error e) →
        e.code ≠ some "resource_missing" →
        (cancelSubscriptionAtPeriodEnd env se w uid).result
          = .error ("Échec programmation annulation Stripe: " ++ e.msg) ∧
        (cancelSubscriptionAtPeriodEnd env se w uid).world = w ∧
        (cancelSubscriptionAtPeriodEnd env se w uid).writes = []) := by
  refine ⟨?_, ?_, ?_⟩
  · intro env se w uid sub sid rsub hdb hfind hsid hret hcape hcpe
    have hrem : remoteCancelPhase se sub sid
        = ([.retrieve sid], .ok (some (.date (rsub.current_period_end * 1000)))) := by
      unfold remoteCancelPhase
      simp [hret, hcape, hcpe]
    constructor
    · simp [cancelSubscriptionAtPeriodEnd, hfind, hsid, hrem]
      cases hf : findOneByUser w.store uid (fun _ => true) <;>
        simp [updateSubscription, hdb, hf]
    · simp [cancelSubscriptionAtPeriodEnd, hfind, hsid, hrem]
      cases hf : findOneByUser w.store uid (fun _ => true) <;>
        simp [updateSubscription, hdb, hf, applyUpdate, cleanEndDate, Except.map, cancelPersistData]
  · intro env se w uid sub sid calls0 e hdb hfind hsid hrem hcode
    simp [cancelSubscriptionAtPeriodEnd, hfind, hsid, hrem, hcode, localFallbackEnd]
    cases hf : findOneByUser w.store uid (fun _ => true) <;>
      simp [updateSubscription, hdb, hf, applyUpdate, cleanEndDate, Except.map, cancelPersistData]
  · intro env se w uid sub sid calls0 e hfind hsid hrem hcode
    refine ⟨?_, ?_, ?_⟩ <;>
      simp [cancelSubscriptionAtPeriodEnd, hfind, hsid, hrem, hcode]

/-- An active monthly subscription with remote id `sub_1`, for
witnesses. -/
def subActive : Subscription :=
  { userId := 1, plan := .monthly, status := .active, isActive := true,
    stripeCustomerId := some "cus_1", stripeSubscriptionId := some "sub_1" }

/-- A world holding `subActive`. -/
def wActive : WorldState := ⟨[subActive], [(1, "premium")]⟩

/-- The remote subscription already scheduled for cancellation. -/
def rsubCape : RemoteSub :=
  { id := "sub_1", cancel_at_period_end := true, current_period_end := 2000,
    firstItemId := "it_1" }

/-- Stripe behaviour: retrieve finds a subscription already scheduled for
cancellation. -/
def seCape : StripeEnv :=
  { retrieve := fun _ => .ok rsubCape,
    updateCancel := fun i _ => .ok { id := i, current_period_end := 3000 },
    updateItems := fun i _ _ => .ok { id := i } }

/-- Stripe behaviour: every call fails with `resource_missing`. -/
def seMissing : StripeEnv :=
  { retrieve := fun _ => .error ⟨some "resource_missing", "No such subscription"⟩,
    updateCancel := fun _ _ => .error ⟨some "resource_missing", "No such subscription"⟩,
    updateItems := fun _ _ _ => .error ⟨some "resource_missing", "No such subscription"⟩ }

/-- Stripe behaviour: every call fails with an unknown API error. -/
def seDown : StripeEnv :=
  { retrieve := fun _ => .error ⟨some "api_error", "stripe down"⟩,
    updateCancel := fun _ _ => .error ⟨some "api_error", "stripe down"⟩,
    updateItems := fun _ _ _ => .error ⟨some "api_error", "stripe down"⟩ }

/-- Claim C4, witness: the three remote-phase scenarios at concrete
inputs. -/
theorem c4_witness :
    ((cancelSubscriptionAtPeriodEnd testEnv seCape wActive 1).calls
        = [.retrieve "sub_1"] ∧
      (cancelSubscriptionAtPeriodEnd testEnv seCape wActive 1).result.map
          Subscription.endDate = .ok (some (.date 2000000))) ∧
    ((cancelSubscriptionAtPeriodEnd testEnv seMissing wActive 1).result.map
        Subscription.endDate = .ok (some (.date (testEnv.addMonth testEnv.now)))) ∧
    ((cancelSubscriptionAtPeriodEnd testEnv seDown wActive 1).result
        = .error "Échec programmation annulation Stripe: stripe down" ∧
      (cancelSubscriptionAtPeriodEnd testEnv seDown wActive 1).world = wActive ∧
      (cancelSubscriptionAtPeriodEnd testEnv seDown wActive 1).writes = []) := by
  refine ⟨c4_remote_cancel_policy.1 testEnv seCape wActive 1 subActive "sub_1" rsubCape
      rfl rfl rfl rfl rfl (by decide), ?_, ?_⟩
  · have h := c4_remote_cancel_policy.2.1 testEnv seMissing wActive 1 subActive "sub_1"
      [.retrieve "sub_1"] ⟨some "resource_missing", "No such subscription"⟩
      rfl rfl rfl rfl rfl
    simpa [subActive] using h
  · exact c4_remote_cancel_policy.2.2 testEnv seDown wActive 1 subActive "sub_1"
      [.retrieve "sub_1"] ⟨some "api_error", "stripe down"⟩
      rfl rfl rfl (by decide)

/-! ### Claim C5 -/

/-- Claim C5 (confirmed): the guard chain of
`cancelSubscriptionAtPeriodEnd` fails in three distinct ways, never
issuing a remote call nor touching the world: (i) no active record but a
scheduled cancellation (`canceled`, still active, not immediate) → the
"already scheduled" message naming the existing end date; (ii) otherwise
an expired cancellation → the "already expired, resubscribe" message;
(iii) otherwise → "nothing to cancel". -/
theorem c5_cancel_guards :
    (∀ (env : DbEnv) (se : StripeEnv) (w : WorldState) (uid : Nat)
        (s : Subscription),
        findOneByUser w.store uid activePred = none →
        findOneByUser w.store uid scheduledPred = some s →
        (cancelSubscriptionAtPeriodEnd env se w uid).result
          = .error ("Votre abonnement est déjà programmé pour annulation le " ++
              endDateDisplay env s.endDate ++
              ". Vous pouvez le réactiver si vous changez d\x27avis.") ∧
        (cancelSubscriptionAtPeriodEnd env se w uid).calls = [] ∧
        (cancelSubscriptionAtPeriodEnd env se w uid).world = w) ∧
    (∀ (env : DbEnv) (ms : Int),
        endDateDisplay env (some (.date ms)) = env.formatDate ms) ∧
    (∀ (env : DbEnv) (se : StripeEnv) (w : WorldState) (uid : Nat)
        (s : Subscription),
        findOneByUser w.store uid activePred = none →
        findOneByUser w.store uid scheduledPred = none →
        findOneByUser w.store uid expiredPred = some s →
        (cancelSubscriptionAtPeriodEnd env se w uid).result
          = .error "Votre abonnement a déjà expiré. Vous pouvez souscrire à un nouveau plan depuis la page Premium." ∧
        (cancelSubscriptionAtPeriodEnd env se w uid).calls = [] ∧
        (cancelSubscriptionAtPeriodEnd env se w uid).world = w) ∧
    (∀ (env : DbEnv) (se : StripeEnv) (w : WorldState) (uid : Nat),
        findOneByUser w.store uid activePred = none →
        findOneByUser w.store uid scheduledPred = none →
        findOneByUser w.store uid expiredPred = none →
        (cancelSubscriptionAtPeriodEnd env se w uid).result
          = .error "Aucun abonnement à annuler trouvé." ∧
        (cancelSubscriptionAtPeriodEnd env se w uid).calls = [] ∧
        (cancelSubscriptionAtPeriodEnd env se w uid).world = w) := by
  refine ⟨?_, ?_, ?_, ?_⟩
  · intro env se w uid s h1 h2
    refine ⟨?_, ?_, ?_⟩ <;> simp [cancelSubscriptionAtPeriodEnd, h1, h2]
  · intro env ms
    rfl
  · intro env se w uid s h1 h2 h3
    refine ⟨?_, ?_, ?_⟩ <;> simp [cancelSubscriptionAtPeriodEnd, h1, h2, h3]
  · intro env se w uid h1 h2 h3
    refine ⟨?_, ?_, ?_⟩ <;> simp [cancelSubscriptionAtPeriodEnd, h1, h2, h3]

/-- A subscription already scheduled for end-of-period cancellation. -/
def subScheduled : Subscription :=
  { userId := 1, plan := .monthly, status := .canceled, isActive := true,
    cancelationType := some .end_of_period, endDate := some (.date 500),
    stripeSubscriptionId := some "sub_1" }

/-- A subscription whose cancellation has already expired. -/
def subExpired : Subscription :=
  { userId := 1, plan := .monthly, status := .canceled, isActive := false,
    cancelationType := some .end_of_period, endDate := some (.date 500) }

/-- Claim C5, witness: the three guard failures at concrete stores. -/
theorem c5_witness :
    ((cancelSubscriptionAtPeriodEnd testEnv seCape ⟨[subScheduled], []⟩ 1).result
        = .error ("Votre abonnement est déjà programmé pour annulation le " ++
            endDateDisplay testEnv (some (.date 500)) ++
            ". Vous pouvez le réactiver si vous changez d\x27avis.") ∧
      (cancelSubscriptionAtPeriodEnd testEnv seCape ⟨[subScheduled], []⟩ 1).calls = [] ∧
      (cancelSubscriptionAtPeriodEnd testEnv seCape ⟨[subScheduled], []⟩ 1).world
        = ⟨[subScheduled], []⟩) ∧
    (endDateDisplay testEnv (some (.date 500)) = testEnv.formatDate 500) ∧
    ((cancelSubscriptionAtPeriodEnd testEnv seCape ⟨[subExpired], []⟩ 1).result
        = .error "Votre abonnement a déjà expiré. Vous pouvez souscrire à un nouveau plan depuis la page Premium." ∧
      (cancelSubscriptionAtPeriodEnd testEnv seCape ⟨[subExpired], []⟩ 1).calls = [] ∧
      (cancelSubscriptionAtPeriodEnd testEnv seCape ⟨[subExpired], []⟩ 1).world
        = ⟨[subExpired], []⟩) ∧
    ((cancelSubscriptionAtPeriodEnd testEnv seCape ⟨[], []⟩ 1).result
        = .error "Aucun abonnement à annuler trouvé." ∧
      (cancelSubscriptionAtPeriodEnd testEnv seCape ⟨[], []⟩ 1).calls = [] ∧
      (cancelSubscriptionAtPeriodEnd testEnv seCape ⟨[], []⟩ 1).world = ⟨[], []⟩) :=
  ⟨c5_cancel_guards.1 testEnv seCape ⟨[subScheduled], []⟩ 1 subScheduled rfl rfl,
   c5_cancel_guards.2.1 testEnv 500,
   c5_cancel_guards.2.2.1 testEnv seCape ⟨[subExpired], []⟩ 1 subExpired rfl rfl rfl,
   c5_cancel_guards.2.2.2 testEnv seCape ⟨[], []⟩ 1 rfl rfl rfl⟩

/-! ### Claim C6 -/

/-- A stored subscription carrying a valid endDate, for the C6
counterexample. -/
def c6Sub : Subscription :=
  { userId := 1, plan := .monthly, status := .active, isActive := true,
    endDate := some (.date 111) }

/-- Claim C6, counterexample: when the record already holds a valid
endDate, writing the malformed endDate `"null"` through
`updateSubscription` strips the field from the update, so reading the
record back yields the previous endDate — a present field, not an absent
one as the round-trip clause states. -/
theorem c6_counterexample :
    ((updateSubscription testEnv ⟨[c6Sub], []⟩ 1
        { endDate := some .strNull }).result.map Subscription.endDate
      = .ok (some (.date 111))) ∧
    (findOneByUser
        (updateSubscription testEnv ⟨[c6Sub], []⟩ 1
          { endDate := some .strNull }).world.store 1 (fun _ => true)
      = some { c6Sub with updatedAt := testEnv.now }) ∧
    some (JsDateVal.date 111) ≠ (none : Option JsDateVal) :=
  ⟨rfl, rfl, by decide⟩

/-- Claim C6 (amended): `updateSubscription` strips every malformed
endDate (`null`, `"null"`, `""`, unparseable) before the merge and never
persists it: the persisted endDate is the cleaned update value when one
survives, and otherwise the previous stored value (absent on a fresh
upsert).  Hence a fresh upsert carrying a malformed endDate reads back
with the field absent, and a record whose endDate was valid keeps that
valid value — validity of the stored field is preserved by every call. -/
theorem c6_endDate_stripping :
    (cleanEndDate (some .nullV) = none ∧ cleanEndDate (some .strNull) = none ∧
      cleanEndDate (some .emptyStr) = none ∧ cleanEndDate (some .invalidStr) = none) ∧
    (∀ (env : DbEnv) (w : WorldState) (uid : Nat) (data : UpdateData)
        (r : Subscription),
        (updateSubscription env w uid data).result = .ok r →
        r.endDate =
          (match cleanEndDate data.endDate with
            | some v => some v
            | none =>
                ((findOneByUser w.store uid (fun _ => true)).map
                  (fun s => s.endDate)).getD none)) ∧
    (∀ (env : DbEnv) (w : WorldState) (uid : Nat) (data : UpdateData)
        (r : Subscription),
        findOneByUser w.store uid (fun _ => true) = none →
        cleanEndDate data.endDate = none →
        (updateSubscription env w uid data).result = .ok r →
        r.endDate = none) ∧
    (∀ (env : DbEnv) (w : WorldState) (uid : Nat) (data : UpdateData)
        (r : Subscription),
        (∀ prev, findOneByUser w.store uid (fun _ => true) = some prev →
          validEnd prev.endDate = true) →
        (updateSubscription env w uid data).result = .ok r →
        validEnd r.endDate = true) := by
  have key : ∀ (env : DbEnv) (w : WorldState) (uid : Nat) (data : UpdateData)
      (r : Subscription),
      (updateSubscription env w uid data).result = .ok r →
      r.endDate =
        (match cleanEndDate data.endDate with
          | some v => some v
          | none =>
              ((findOneByUser w.store uid (fun _ => true)).map
                (fun s => s.endDate)).getD none) := by
    intro env w uid data r hr
    cases hdb : env.subWriteFails with
    | true => simp [updateSubscription, hdb] at hr
    | false =>
      rw [updateSubscription_ok env w uid data hdb] at hr
      injection hr with hr
      subst hr
      cases hf : findOneByUser w.store uid (fun _ => true) with
      | none =>
        cases hx : cleanEndDate data.endDate with
        | none => simp [hf, applyUpdate, hx, cleanEndDate, defaultSub]
        | some v =>
          have h2 : cleanEndDate (some v) = some v := by
            rw [← hx, cleanEndDate_idem, hx]
          simp [hf, applyUpdate, hx, h2]
      | some prev =>
        cases hx : cleanEndDate data.endDate with
        | none => simp [hf, applyUpdate, hx, cleanEndDate]
        | some v =>
          have h2 : cleanEndDate (some v) = some v := by
            rw [← hx, cleanEndDate_idem, hx]
          simp [hf, applyUpdate, hx, h2]
  refine ⟨⟨rfl, rfl, rfl, rfl⟩, key, ?_, ?_⟩
  · intro env w uid data r hfind hclean hr
    rw [key env w uid data r hr, hclean, hfind]
    simp
  · intro env w uid data r hvalid hr
    rw [key env w uid data r hr]
    cases hx : cleanEndDate data.endDate with
    | some v =>
      cases hd : data.endDate with
      | none => rw [hd] at hx; simp [cleanEndDate] at hx
      | some dv =>
        cases dv with
        | date ms =>
          rw [hd] at hx
          have hv : v = .date ms := by
            have := hx.symm
            simpa [cleanEndDate] using this
          subst hv
          simp [validEnd]
        | nullV => rw [hd] at hx; simp [cleanEndDate] at hx
        | strNull => rw [hd] at hx; simp [cleanEndDate] at hx
        | emptyStr => rw [hd] at hx; simp [cleanEndDate] at hx
        | invalidStr => rw [hd] at hx; simp [cleanEndDate] at hx
    | none =>
      cases hf : findOneByUser w.store uid (fun _ => true) with
      | none => simp [validEnd]
      | some prev => simpa using hvalid prev hf

/-- Claim C6, witness: a fresh upsert carrying the malformed endDate
`"null"` reads back with the field absent, and a malformed write over a
valid stored endDate keeps validity. -/
theorem c6_witness :
    (∃ r, (updateSubscription testEnv ⟨[], []⟩ 1
        { endDate := some .strNull }).result = .ok r ∧ r.endDate = none) ∧
    (∃ r, (updateSubscription testEnv ⟨[c6Sub], []⟩ 1
        { endDate := some .emptyStr }).result = .ok r ∧ validEnd r.endDate = true) := by
  constructor
  · refine ⟨applyUpdate testEnv.now (defaultSub 1 testEnv.now)
      { endDate := cleanEndDate (some .strNull) }, rfl, ?_⟩
    exact c6_endDate_stripping.2.2.1 testEnv ⟨[], []⟩ 1 { endDate := some .strNull }
      _ rfl rfl rfl
  · refine ⟨applyUpdate testEnv.now c6Sub
      { endDate := cleanEndDate (some .emptyStr) }, rfl, ?_⟩
    exact c6_endDate_stripping.2.2.2 testEnv ⟨[c6Sub], []⟩ 1
      { endDate := some .emptyStr } _
      (by intro prev hp; injection hp with hp; rw [← hp]; rfl) rfl

/-! ### Claim C7 -/

/-- Claim C7 (confirmed): `updateSubscription` elevates the user role to
"premium" exactly when `updateUserRole === true`, `status === "active"`
and `isActive` is truthy; revokes it to "user" exactly when
`updateUserRole === true`, `status === "canceled"` and `isActive` is
falsy; leaves the roles untouched in every other case; and
`cancelSubscriptionAtPeriodEnd` — which persists with
`updateUserRole: false` — never changes the roles, so scheduling a future
cancellation never downgrades the role. -/
theorem c7_role_projection :
    (∀ (env : DbEnv) (w : WorldState) (uid : Nat) (data : UpdateData),
        data.updateUserRole = some true →
        data.status = some .active →
        data.isActive = some true →
        (updateSubscription env w uid data).world.roles
          = setRole w.roles uid "premium") ∧
    (∀ (env : DbEnv) (w : WorldState) (uid : Nat) (data : UpdateData),
        data.updateUserRole = some true →
        data.status = some .canceled →
        data.isActive ≠ some true →
        (updateSubscription env w uid data).world.roles
          = setRole w.roles uid "user") ∧
    (∀ (env : DbEnv) (w : WorldState) (uid : Nat) (data : UpdateData),
        data.updateUserRole ≠ some true →
        (updateSubscription env w uid data).world.roles = w.roles) ∧
    (∀ (env : DbEnv) (w : WorldState) (uid : Nat) (data : UpdateData),
        data.updateUserRole = some true →
        ¬(data.status = some .active ∧ data.isActive = some true) →
        ¬(data.status = some .canceled ∧ data.isActive ≠ some true) →
        (updateSubscription env w uid data).world.roles = w.roles) ∧
    (∀ (env : DbEnv) (se : StripeEnv) (w : WorldState) (uid : Nat),
        (cancelSubscriptionAtPeriodEnd env se w uid).world.roles = w.roles) := by
  refine ⟨?_, ?_, ?_, ?_, ?_⟩
  · intro env w uid data h1 h2 h3
    cases hdb : env.subWriteFails <;>
      simp [updateSubscription, hdb, h1, h2, h3]
  · intro env w uid data h1 h2 h3
    cases hdb : env.subWriteFails <;>
      simp [updateSubscription, hdb, h1, h2, h3]
  · intro env w uid data h1
    exact updateSubscription_roles_noRole env w uid data h1
  · intro env w uid data h1 h2 h3
    cases hdb : env.subWriteFails <;>
      simp [updateSubscription, hdb, h1, h2, h3]
  · intro env se w uid
    unfold cancelSubscriptionAtPeriodEnd
    cases h1 : findOneByUser w.store uid activePred with
    | none =>
      cases h2 : findOneByUser w.store uid scheduledPred with
      | some s => simp
      | none =>
        cases h3 : findOneByUser w.store uid expiredPred <;> simp
    | some sub =>
      cases hs : sub.stripeSubscriptionId with
      | none =>
        simp only [hs]
        split <;> simp_all [cancel_persist_roles]
      | some sid =>
        rcases hr : remoteCancelPhase se sub sid with ⟨calls, res⟩
        cases res with
        | error e =>
          by_cases hc : e.code = some "resource_missing"
          · simp only [hs, hr, hc, if_pos]
            split <;> simp_all [cancel_persist_roles]
          · simp [hs, hr, hc]
        | ok cand =>
          rcases cand with _ | v
          · simp only [hs, hr]
            split <;> simp_all [cancel_persist_roles]
          · cases v <;> simp only [hs, hr] <;>
              split <;> simp_all [cancel_persist_roles]

/-- Claim C7, witness: the four role cases and a concrete scheduled
cancellation, each at concrete inputs. -/
theorem c7_witness :
    ((updateSubscription testEnv ⟨[], []⟩ 1
        { status := some .active, isActive := some true,
          updateUserRole := some true }).world.roles
      = setRole [] 1 "premium") ∧
    ((updateSubscription testEnv ⟨[], [(1, "premium")]⟩ 1
        { status := some .canceled, isActive := some false,
          updateUserRole := some true }).world.roles
      = setRole [(1, "premium")] 1 "user") ∧
    ((updateSubscription testEnv ⟨[], [(1, "premium")]⟩ 1
        { status := some .canceled, isActive := some true,
          updateUserRole := some false }).world.roles = [(1, "premium")]) ∧
    ((updateSubscription testEnv ⟨[], [(1, "premium")]⟩ 1
        { status := some .canceled, isActive := some true,
          updateUserRole := some true }).world.roles = [(1, "premium")]) ∧
    ((cancelSubscriptionAtPeriodEnd testEnv seCape wActive 1).world.roles
      = [(1, "premium")]) :=
  ⟨c7_role_projection.1 testEnv ⟨[], []⟩ 1 _ rfl rfl rfl,
   c7_role_projection.2.1 testEnv ⟨[], [(1, "premium")]⟩ 1 _ rfl rfl (by decide),
   c7_role_projection.2.2.1 testEnv ⟨[], [(1, "premium")]⟩ 1 _ (by decide),
   c7_role_projection.2.2.2.1 testEnv ⟨[], [(1, "premium")]⟩ 1 _ rfl
     (by decide) (by decide),
   c7_role_projection.2.2.2.2 testEnv seCape wActive 1⟩

/-! ### Claim C8 -/

/-- Claim C8 (confirmed): `reactivateSubscription` succeeds only on a
`status = canceled, isActive = true, cancelationType = end_of_period`
record — an immediate-canceled or expired record never matches the filter,
so those attempts fail with the specific "Aucun abonnement annulé
réactivable trouvé." reason and no call or write is issued; when a remote
id exists and clearing `cancel_at_period_end` remotely fails, the whole
operation aborts with the wrapped Stripe error and the world untouched;
on success it persists `status = active, isActive = true,
cancelationType = null` and restores the "premium" role
(`updateUserRole: true`). -/
theorem c8_reactivate_policy :
    (∀ (s : Subscription),
        s.cancelationType = some .immediate ∨ s.isActive = false →
        reactivablePred s = false) ∧
    (∀ (env : DbEnv) (se : StripeEnv) (w : WorldState) (uid : Nat),
        findOneByUser w.store uid reactivablePred = none →
        (reactivateSubscription env se w uid).result
          = .error "Aucun abonnement annulé réactivable trouvé." ∧
        (reactivateSubscription env se w uid).calls = [] ∧
        (reactivateSubscription env se w uid).world = w) ∧
    (∀ (env : DbEnv) (se : StripeEnv) (w : WorldState) (uid : Nat)
        (sub : Subscription) (sid : String) (e : StripeErr),
        findOneByUser w.store uid reactivablePred = some sub →
        sub.stripeSubscriptionId = some sid →
        se.updateCancel sid false = .error e →
        (reactivateSubscription env se w uid).result
          = .error ("Échec réactivation Stripe: " ++ e.msg) ∧
        (reactivateSubscription env se w uid).world = w ∧
        (reactivateSubscription env se w uid).writes = []) ∧
    (∀ (env : DbEnv) (se : StripeEnv) (w : WorldState) (uid : Nat)
        (sub : Subscription),
        env.subWriteFails = false →
        findOneByUser w.store uid reactivablePred = some sub →
        (sub.stripeSubscriptionId = none ∨
          ∃ sid rsub, sub.stripeSubscriptionId = some sid ∧
            se.updateCancel sid false = .ok rsub) →
        (reactivateSubscription env se w uid).result.map Subscription.status
            = .ok .active ∧
        (reactivateSubscription env se w uid).result.map Subscription.isActive
            = .ok true ∧
        (reactivateSubscription env se w uid).result.map Subscription.cancelationType
            = .ok none ∧
        (reactivateSubscription env se w uid).world.roles
            = setRole w.roles uid "premium") := by
  refine ⟨?_, ?_, ?_, ?_⟩
  · intro s h
    rcases h with h | h <;> simp [reactivablePred, h]
  · intro env se w uid hfind
    refine ⟨?_, ?_, ?_⟩ <;> simp [reactivateSubscription, hfind]
  · intro env se w uid sub sid e hfind hsid herr
    refine ⟨?_, ?_, ?_⟩ <;> simp [reactivateSubscription, hfind, hsid, herr]
  · intro env se w uid sub hdb hfind hrem
    have hpersist :
        (updateSubscription env w uid
          { status := some .active, isActive := some true,
            cancelationType := some none, updateUserRole := some true }).result
          = .ok (applyUpdate env.now
              ((findOneByUser w.store uid (fun _ => true)).getD
                (defaultSub uid env.now))
              { status := some .active, isActive := some true,
                cancelationType := some none, updateUserRole := some true,
                endDate := none }) := by
      have h := updateSubscription_ok env w uid
        { status := some .active, isActive := some true,
          cancelationType := some none, updateUserRole := some true } hdb
      simpa [cleanEndDate] using h
    have hroles :
        (updateSubscription env w uid
          { status := some .active, isActive := some true,
            cancelationType := some none, updateUserRole := some true }).world.roles
          = setRole w.roles uid "premium" := by
      cases h2 : env.subWriteFails <;> simp [updateSubscription, h2]
    rcases hrem with hnone | ⟨sid, rsub, hsid, hok⟩
    · refine ⟨?_, ?_, ?_, ?_⟩ <;>
        simp [reactivateSubscription, hfind, hnone, hpersist, hroles, Except.map,
          applyUpdate]
    · refine ⟨?_, ?_, ?_, ?_⟩ <;>
        simp [reactivateSubscription, hfind, hsid, hok, hpersist, hroles, Except.map,
          applyUpdate]

/-- An end-of-period-canceled, still-active subscription with a remote
id, the reactivable state. -/
def subReact : Subscription :=
  { userId := 1, plan := .monthly, status := .canceled, isActive := true,
    cancelationType := some .end_of_period, endDate := some (.date 5000),
    stripeSubscriptionId := some "sub_1" }

/-- An immediate-canceled subscription (still active). -/
def subImmediate : Subscription :=
  { userId := 1, plan := .monthly, status := .canceled, isActive := true,
    cancelationType := some .immediate }

/-- Stripe behaviour: every call succeeds with a plain active remote
subscription. -/
def seOk : StripeEnv :=
  { retrieve := fun i => .ok ⟨i, false, 2000, "it_1"⟩,
    updateCancel := fun i _ => .ok ⟨i, false, 2000, ""⟩,
    updateItems := fun i _ _ => .ok ⟨i, false, 0, ""⟩ }

/-- Claim C8, witness: the reactivation scenarios at concrete inputs. -/
theorem c8_witness :
    (reactivablePred subImmediate = false) ∧
    ((reactivateSubscription testEnv seOk ⟨[subImmediate], []⟩ 1).result
        = .error "Aucun abonnement annulé réactivable trouvé." ∧
      (reactivateSubscription testEnv seOk ⟨[subImmediate], []⟩ 1).calls = [] ∧
      (reactivateSubscription testEnv seOk ⟨[subImmediate], []⟩ 1).world
        = ⟨[subImmediate], []⟩) ∧
    ((reactivateSubscription testEnv seDown ⟨[subReact], [(1, "premium")]⟩ 1).result
        = .error "Échec réactivation Stripe: stripe down" ∧
      (reactivateSubscription testEnv seDown ⟨[subReact], [(1, "premium")]⟩ 1).world
        = ⟨[subReact], [(1, "premium")]⟩ ∧
      (reactivateSubscription testEnv seDown ⟨[subReact], [(1, "premium")]⟩ 1).writes
        = []) ∧
    ((reactivateSubscription testEnv seOk ⟨[subReact], [(1, "premium")]⟩ 1).result.map
        Subscription.status = .ok .active ∧
      (reactivateSubscription testEnv seOk ⟨[subReact], [(1, "premium")]⟩ 1).result.map
        Subscription.isActive = .ok true ∧
      (reactivateSubscription testEnv seOk ⟨[subReact], [(1, "premium")]⟩ 1).result.map
        Subscription.cancelationType = .ok none ∧
      (reactivateSubscription testEnv seOk ⟨[subReact], [(1, "premium")]⟩ 1).world.roles
        = setRole [(1, "premium")] 1 "premium") :=
  ⟨c8_reactivate_policy.1 subImmediate (Or.inl rfl),
   c8_reactivate_policy.2.1 testEnv seOk ⟨[subImmediate], []⟩ 1 rfl,
   c8_reactivate_policy.2.2.1 testEnv seDown ⟨[subReact], [(1, "premium")]⟩ 1
     subReact "sub_1" ⟨some "api_error", "stripe down"⟩ rfl rfl rfl,
   c8_reactivate_policy.2.2.2 testEnv seOk ⟨[subReact], [(1, "premium")]⟩ 1
     subReact rfl rfl (Or.inr ⟨"sub_1", _, rfl, rfl⟩)⟩

/-! ### Claim C9 -/

/-- Claim C9 (confirmed): for a user with an active monthly subscription
(remote id present, remote calls succeeding), `changePlan` to `annual`
returns old plan monthly, new plan annual, an effective end date one year
from now, and a proration of `-(9.99 * 12 - 99.99) = -19.89` (a credit);
and `changePlan` to the current plan fails with the "already on this
plan" message. -/
theorem c9_change_plan :
    (∀ (env : DbEnv) (se : StripeEnv) (w : WorldState) (uid : Nat)
        (sub : Subscription) (sid pid : String) (rsub usub : RemoteSub),
        env.subWriteFails = false →
        findOneByUser w.store uid activePred = some sub →
        sub.plan = .monthly →
        sub.stripeSubscriptionId = some sid →
        env.priceAnnualId = some pid →
        se.retrieve sid = .ok rsub →
        se.updateItems sid rsub.firstItemId pid = .ok usub →
        ∃ info, (changePlan env se w uid .annual).result = .ok info ∧
          info.oldPlan = .monthly ∧
          info.newPlan = .annual ∧
          info.effectiveDate = env.addYear env.now ∧
          info.prorationAmount = -(monthlyPrice * 12 - annualPrice) ∧
          info.prorationAmount = -(1989 / 100 : ℚ)) ∧
    (∀ (env : DbEnv) (se : StripeEnv) (w : WorldState) (uid : Nat)
        (sub : Subscription),
        findOneByUser w.store uid activePred = some sub →
        (changePlan env se w uid sub.plan).result
          = .error ("Vous êtes déjà sur le plan " ++ planName sub.plan ++ ".")) := by
  constructor
  · intro env se w uid sub sid pid rsub usub hdb hfind hplan hsid hpid hret hupd
    have hne : ¬ sub.plan = Plan.annual := by rw [hplan]; decide
    obtain ⟨r, hr⟩ : ∃ r, (updateSubscription env w uid
        { plan := some .annual, endDate := some (.date (env.addYear env.now)),
          updateUserRole := some false }).result = .ok r :=
      ⟨_, updateSubscription_ok env w uid _ hdb⟩
    have hres : (changePlan env se w uid .annual).result
        = .ok { subscription := r, oldPlan := sub.plan, newPlan := .annual,
                effectiveDate := env.addYear env.now,
                prorationAmount := prorationFor sub.plan .annual } := by
      simp [changePlan, hfind, hne, hsid, hpid, hret, hupd,
        changePlanEffectiveDate, hr]
    refine ⟨_, hres, ?_, ?_, ?_, ?_, ?_⟩
    · simpa using hplan
    · rfl
    · rfl
    · simp [prorationFor, hplan]
    · simp [prorationFor, hplan, monthlyPrice, annualPrice]
      norm_num
  · intro env se w uid sub hfind
    simp [changePlan, hfind]

/-- Claim C9, witness: the monthly-to-annual scenario and the same-plan
refusal at concrete inputs. -/
theorem c9_witness :
    (∃ info, (changePlan testEnv seOk wActive 1 .annual).result = .ok info ∧
      info.oldPlan = .monthly ∧
      info.newPlan = .annual ∧
      info.effectiveDate = testEnv.addYear testEnv.now ∧
      info.prorationAmount = -(monthlyPrice * 12 - annualPrice) ∧
      info.prorationAmount = -(1989 / 100 : ℚ)) ∧
    ((changePlan testEnv seOk wActive 1 .monthly).result
      = .error ("Vous êtes déjà sur le plan " ++ planName .monthly ++ ".")) := by
  constructor
  · exact c9_change_plan.1 testEnv seOk wActive 1 subActive "sub_1" "price_a"
      { id := "sub_1", current_period_end := 2000, firstItemId := "it_1" }
      { id := "sub_1" } rfl rfl rfl rfl rfl rfl rfl
  · have h := c9_change_plan.2 testEnv seOk wActive 1 subActive rfl
    simpa [subActive] using h

/-! ### Claim C10 -/

/-- Claim C10 (confirmed): in `updateSubscription` with
`updateUserRole: true` and an entitlement-granting payload, the role-store
write is issued before the subscription-store write; when the
subscription-store write then fails, the call throws but the role change
already applied is not rolled back — the two writes are not atomic. -/
theorem c10_role_write_not_atomic :
    (∀ (env : DbEnv) (w : WorldState) (uid : Nat) (data : UpdateData),
        env.subWriteFails = false →
        data.updateUserRole = some true →
        data.status = some .active →
        data.isActive = some true →
        (updateSubscription env w uid data).writes
          = [.roleWrite uid "premium", .subWrite uid]) ∧
    (∀ (env : DbEnv) (w : WorldState) (uid : Nat) (data : UpdateData),
        env.subWriteFails = true →
        data.updateUserRole = some true →
        data.status = some .active →
        data.isActive = some true →
        (∃ m, (updateSubscription env w uid data).result = .error m) ∧
        (updateSubscription env w uid data).world.roles
          = setRole w.roles uid "premium" ∧
        (updateSubscription env w uid data).world.store = w.store ∧
        (updateSubscription env w uid data).writes = [.roleWrite uid "premium"]) := by
  constructor
  · intro env w uid data hdb h1 h2 h3
    simp [updateSubscription, hdb, h1, h2, h3]
  · intro env w uid data hdb h1 h2 h3
    refine ⟨⟨"db write failed", ?_⟩, ?_, ?_, ?_⟩ <;>
      simp [updateSubscription, hdb, h1, h2, h3]

/-- Claim C10, witness: the ordering and the non-rollback at a concrete
payload and failing store. -/
theorem c10_witness :
    ((updateSubscription testEnv ⟨[], []⟩ 1
        { status := some .active, isActive := some true,
          updateUserRole := some true }).writes
      = [.roleWrite 1 "premium", .subWrite 1]) ∧
    ((∃ m, (updateSubscription failEnv ⟨[], []⟩ 1
        { status := some .active, isActive := some true,
          updateUserRole := some true }).result = .error m) ∧
      (updateSubscription failEnv ⟨[], []⟩ 1
        { status := some .active, isActive := some true,
          updateUserRole := some true }).world.roles = setRole [] 1 "premium" ∧
      (updateSubscription failEnv ⟨[], []⟩ 1
        { status := some .active, isActive := some true,
          updateUserRole := some true }).world.store = [] ∧
      (updateSubscription failEnv ⟨[], []⟩ 1
        { status := some .active, isActive := some true,
          updateUserRole := some true }).writes = [.roleWrite 1 "premium"]) :=
  ⟨c10_role_write_not_atomic.1 testEnv ⟨[], []⟩ 1 _ rfl rfl rfl rfl,
   c10_role_write_not_atomic.2 failEnv ⟨[], []⟩ 1 _ rfl rfl rfl rfl⟩

end PaymentService






